import Mathlib

/-!
# Verification of `phase_portrait.py`

A shallow embedding of the phase-portrait plotting library
(`InitialCondition`, `PhasePortrait.plot_trajectory`,
`PhasePortrait.plot_equilibrium`, `PhasePortrait.plot_trajectories`,
`PhasePortrait.save`) together with proofs about it.

Conventions of the embedding:
* Python floats are modelled as rationals (`ℚ`); Python ints as `Int`/`Nat`.
* Fallible Python operations (sequence indexing, which can raise
  `IndexError`) are modelled with `Except String`.
* The matplotlib calls are modelled by recording their arguments: a
  trajectory render is a curve plus a list of `Arrow`s (an `annotate` call
  records its `xy` head point and `xytext` tail point), an equilibrium
  render is a `Marker`, and `solve_ivp` invocations are recorded as
  `SolverCall` values handed to an abstract `solver` function.
* Python object aliasing of config dicts is modelled with an explicit
  store (`List PlotConfig`) addressed by index; the `config` field of an
  `InitialCondition` holds an address into that store.
-/

deriving instance DecidableEq for Except

namespace PhasePortrait

/-- Python index normalization: a negative index counts from the end. -/
def pyNorm (len : ℕ) (i : Int) : Int :=
  if i < 0 then i + len else i

/-- Python sequence indexing `xs[i]`, including negative-index wraparound;
out-of-range access is an `IndexError`. -/
def pyGet (xs : List ℚ) (i : Int) : Except String ℚ :=
  if 0 ≤ pyNorm xs.length i ∧ pyNorm xs.length i < (xs.length : Int) then
    .ok (xs.getD (pyNorm xs.length i).toNat 0)
  else
    .error "IndexError"

/-- One `ax.annotate` arrow call: `xy` is the head (where the arrowhead is
drawn), `xytext` the tail, as in matplotlib. -/
structure Arrow where
  xy : ℚ × ℚ
  xytext : ℚ × ℚ
  color : String
  deriving DecidableEq, Repr

/-- Swap the tail and head of an arrow (same segment, opposite direction). -/
def swapArrow (a : Arrow) : Arrow :=
  ⟨a.xytext, a.xy, a.color⟩

/-- Line 71 of the source: `not t_eval is None and t_eval[0] > t_eval[-1]`.
The indexing can raise on an empty (non-`None`) schedule. -/
def isReverseE (t_eval : Option (List ℚ)) : Except String Bool :=
  match t_eval with
  | none => .ok false
  | some t =>
    match pyGet t 0, pyGet t (-1) with
    | .ok a, .ok b => .ok (decide (a > b))
    | .error e, _ => .error e
    | _, .error e => .error e

/-- `(x[i], y[i])` evaluated left to right, as in the tuple displays on
lines 79–80 of the source. -/
def getPoint (x y : List ℚ) (i : Int) : Except String (ℚ × ℚ) :=
  match pyGet x i, pyGet y i with
  | .ok a, .ok b => .ok (a, b)
  | .error e, _ => .error e
  | _, .error e => .error e

/-- The arrow loop of `plot_trajectory` (source lines 77–100), faithful to
statement order: both endpoint tuples are computed (and can raise) before
the `idx >= len(x)` guard; on `continue` the index is not advanced; the
tail/head pair is swapped when `is_reverse` holds. -/
def arrowLoop (x y : List ℚ) (arrow_color : String) (is_reverse : Bool)
    (arrow_span : Int) : Nat → Int → Except String (List Arrow)
  | 0, _ => .ok []
  | Nat.succ n, idx =>
    match getPoint x y idx, getPoint x y (idx - 2) with
    | .ok pxy, .ok ptext =>
      if idx ≥ (x.length : Int) then
        arrowLoop x y arrow_color is_reverse arrow_span n idx
      else
        match arrowLoop x y arrow_color is_reverse arrow_span n (idx + arrow_span) with
        | .ok rest =>
          .ok ((if is_reverse then Arrow.mk ptext pxy arrow_color
                else Arrow.mk pxy ptext arrow_color) :: rest)
        | .error e => .error e
    | .error e, _ => .error e
    | _, .error e => .error e

/-- The rendered output of one `plot_trajectory` call: the `ax.plot` curve
(the two sample sequences and the line color) and the `ax.annotate` arrows
in the order they are issued. -/
structure TrajPlot where
  curve : List ℚ × List ℚ × String
  arrows : List Arrow
  deriving DecidableEq, Repr

/-- `PhasePortrait.plot_trajectory` (source lines 51–100): computes
`is_reverse` from `t_eval`, plots the curve, then runs the arrow loop
starting at index `arrow_span`, `number_of_arrow` times. -/
def plot_trajectory (solution : List ℚ × List ℚ) (color : String)
    (arrow_span : Int) (arrow_color : String) (number_of_arrow : Int)
    (t_eval : Option (List ℚ)) : Except String TrajPlot :=
  match isReverseE t_eval with
  | .error e => .error e
  | .ok is_reverse =>
    let x := solution.1
    let y := solution.2
    Except.map (fun arrows => ⟨(x, y, color), arrows⟩)
      (arrowLoop x y arrow_color is_reverse arrow_span number_of_arrow.toNat arrow_span)

end PhasePortrait

namespace PhasePortrait

/-- 30 equally spaced samples `0, 1, …, 29` as rationals. -/
def samples30 : List ℚ := (List.range 30).map (fun i => (i : ℚ))

lemma pyGet_ok (xs : List ℚ) (i : Int) (h0 : 0 ≤ i) (h : i < (xs.length : Int)) :
    pyGet xs i = .ok (xs.getD i.toNat 0) := by
  have hn : pyNorm xs.length i = i := if_neg (by omega)
  unfold pyGet
  rw [hn, if_pos ⟨h0, h⟩]

lemma getPoint_ok (x y : List ℚ) (i : Int) (h0 : 0 ≤ i)
    (hx : i < (x.length : Int)) (hy : i < (y.length : Int)) :
    getPoint x y i = .ok (x.getD i.toNat 0, y.getD i.toNat 0) := by
  unfold getPoint
  rw [pyGet_ok x i h0 hx, pyGet_ok y i h0 hy]

/-- The arrow loop in reverse mode issues exactly the arrows of forward mode
with tail and head exchanged (the temp-swap on source lines 82–85). -/
lemma arrowLoop_reverse_eq_map_swap (x y : List ℚ) (c : String) (s : Int) :
    ∀ (n : ℕ) (idx : Int),
      arrowLoop x y c true s n idx =
        Except.map (List.map swapArrow) (arrowLoop x y c false s n idx) := by
  intro n
  induction n with
  | zero => intro idx; simp [arrowLoop, Except.map]
  | succ n ih =>
    intro idx
    rw [arrowLoop, arrowLoop]
    cases hp : getPoint x y idx with
    | error e => simp [Except.map]
    | ok pxy =>
      cases hq : getPoint x y (idx - 2) with
      | error e => simp [Except.map]
      | ok ptext =>
        by_cases hge : idx ≥ (x.length : Int)
        · simp only [if_pos hge]
          exact ih idx
        · simp only [if_neg hge]
          rw [ih (idx + s)]
          cases hr : arrowLoop x y c false s n (idx + s) with
          | error e => simp [Except.map]
          | ok rest => simp [Except.map, swapArrow]

/-- Forward-mode arrow loop with all indices in range: starting at `idx`, it
emits one arrow per iteration, from the sample two indices before the
current index to the sample at the current index, advancing by `s`. -/
lemma arrowLoop_forward_spec (x y : List ℚ) (c : String) (s : ℕ)
    (hy : y.length = x.length) :
    ∀ (n : ℕ) (idx : ℕ), 2 ≤ idx → (∀ k, k < n → idx + k * s < x.length) →
      arrowLoop x y c false (s : Int) n (idx : Int) =
        .ok ((List.range n).map fun k =>
          Arrow.mk (x.getD (idx + k * s) 0, y.getD (idx + k * s) 0)
                   (x.getD (idx + k * s - 2) 0, y.getD (idx + k * s - 2) 0) c) := by
  intro n
  induction n with
  | zero => intro idx _ _; simp [arrowLoop]
  | succ n ih =>
    intro idx h2 hk
    have hidx : idx < x.length := by simpa using hk 0 (Nat.succ_pos n)
    rw [arrowLoop]
    rw [getPoint_ok x y (idx : Int) (by omega) (by exact_mod_cast hidx)
      (by rw [hy]; exact_mod_cast hidx)]
    have h2' : ((idx : Int) - 2) = ((idx - 2 : ℕ) : Int) := by omega
    rw [h2', getPoint_ok x y ((idx - 2 : ℕ) : Int) (by omega)
      (by exact_mod_cast (by omega : idx - 2 < x.length))
      (by rw [hy]; exact_mod_cast (by omega : idx - 2 < x.length))]
    simp only [Int.toNat_natCast]
    rw [if_neg (by exact_mod_cast (by omega : ¬ ((idx : Int) ≥ (x.length : Int))))]
    have hcast : (idx : Int) + (s : Int) = ((idx + s : ℕ) : Int) := by omega
    rw [hcast, ih (idx + s) (by omega) (fun k hk' => by
      have := hk (k + 1) (by omega)
      calc idx + s + k * s = idx + (k + 1) * s := by ring
        _ < x.length := this)]
    rw [if_neg Bool.false_ne_true, List.range_succ_eq_map]
    simp only [List.map_cons, List.map_map, Nat.zero_mul, Nat.add_zero]
    congr 2
    apply List.map_congr_left
    intro k _
    simp only [Function.comp_apply, Nat.succ_mul]
    have e : idx + (k * s + s) = idx + s + k * s := by
      rw [Nat.add_comm (k * s) s, ← Nat.add_assoc]
    rw [e]

/-- One `ax.scatter` call issued by `plot_equilibrium`. -/
structure Marker where
  x : ℚ
  y : ℚ
  color : String
  s : ℚ
  zorder : ℕ
  deriving DecidableEq, Repr

/-- `PhasePortrait.plot_equilibrium` (source lines 102–111): scatter a
single marker, green when `is_stable`, red otherwise, size 50, zorder 2. -/
def plot_equilibrium (coordinates : ℚ × ℚ) (is_stable : Bool) : Marker :=
  ⟨coordinates.1, coordinates.2, if is_stable then "green" else "red", 50, 2⟩

/-- Python `str.startswith`, modelled on the character list of the string. -/
def startsWithM (s p : String) : Bool :=
  p.data.isPrefixOf s.data

/-- Python `str.endswith`, modelled on the character list of the string. -/
def endsWithM (s p : String) : Bool :=
  p.data.isSuffixOf s.data

/-- The observable effect of one `PhasePortrait.save` call. -/
structure SaveEffect where
  makedirs : Bool
  path : String
  file_name : String
  image_path : String
  deriving DecidableEq, Repr

/-- `PhasePortrait.save` (source lines 179–199): default the directory to
`"images"`, create it when absent, count the files in the given directory
listing whose names start with `"plot_"` and end with `".pdf"`, and write
to `<path>/plot_<count+1>.pdf`. `dir_exists` models `os.path.exists(path)`
and `files` models `os.listdir(path)` (after any creation). -/
def save (path : Option String) (dir_exists : Bool) (files : List String) :
    SaveEffect :=
  let p := path.getD "images"
  let file_count :=
    (files.filter fun nm => startsWithM nm "plot_" && endsWithM nm ".pdf").length
  let file_name := "plot_" ++ Nat.repr (file_count + 1) ++ ".pdf"
  ⟨!dir_exists, p, file_name, p ++ "/" ++ file_name⟩

end PhasePortrait

namespace PhasePortrait

/-- C1: `plot_trajectory` indexes `x[idx]` (source line 79) before the
`idx >= len(x)` bounds guard (line 87), so with 30 samples, `arrow_span=20`
and `number_of_arrow=5` the second arrow iteration raises `IndexError`
instead of being skipped; with `number_of_arrow=1` the single arrow at
index 20 renders. This contradicts the claimed skip-without-error
behaviour (spec §4.2/§8.2): the guard shows skipping was intended, but it
is placed after the indexing. -/
theorem C1_out_of_range_arrow_raises :
    plot_trajectory (samples30, samples30) "black" 20 "black" 5 (some samples30) =
      .error "IndexError"
    ∧ plot_trajectory (samples30, samples30) "black" 20 "black" 1 (some samples30) =
      .ok ⟨(samples30, samples30, "black"), [Arrow.mk (20, 20) (18, 18) "black"]⟩ := by
  constructor <;> decide

/-- C4: with every arrow index in range (`2 ≤ arrow_span` and
`number_of_arrow * arrow_span < len x`), the arrows of `plot_trajectory`
are exactly: for each `k < number_of_arrow`, an arrow whose tail is the
sample at index `(k+1)*arrow_span - 2` and whose head is the sample at
index `(k+1)*arrow_span` — i.e. the first arrow index is `arrow_span`,
each arrow runs from two samples before the current index to the current
index, and the index advances by `arrow_span` between arrows. -/
theorem C4_arrow_placement (x y : List ℚ) (c ac : String) (s n : ℕ)
    (hs : 2 ≤ s) (hy : y.length = x.length) (hn : n * s < x.length) :
    plot_trajectory (x, y) c (s : Int) ac (n : Int) none =
      .ok ⟨(x, y, c), (List.range n).map fun k =>
        Arrow.mk (x.getD ((k + 1) * s) 0, y.getD ((k + 1) * s) 0)
                 (x.getD ((k + 1) * s - 2) 0, y.getD ((k + 1) * s - 2) 0) ac⟩ := by
  have hrange : ∀ k, k < n → s + k * s < x.length := fun k hk =>
    calc s + k * s = (k + 1) * s := by ring
      _ ≤ n * s := Nat.mul_le_mul_right s hk
      _ < x.length := hn
  unfold plot_trajectory
  simp only [isReverseE, Int.toNat_natCast]
  rw [arrowLoop_forward_spec x y ac s hy n s hs hrange]
  simp only [Except.map]
  congr 3
  funext k
  have h1 : (k + 1) * s = s + k * s := by
    rw [Nat.add_mul, Nat.one_mul, Nat.add_comm]
  rw [h1]

/-- C2: under the same in-range conditions, with an ascending schedule
(`isReverseE = ok false`) each arrow's tail is the sample at index
`(k+1)*arrow_span - 2` and its head the sample at index `(k+1)*arrow_span`;
with a descending schedule (`t_eval[0] > t_eval[-1]`, `isReverseE = ok
true`) the rendered arrows are exactly the forward ones with tail and head
exchanged, so the arrowhead tracks physical time flow rather than array
order. -/
theorem C2_arrow_direction_under_time_reversal (x y : List ℚ) (c ac : String)
    (s n : ℕ) (ta td : List ℚ) (hs : 2 ≤ s) (hy : y.length = x.length)
    (hn : n * s < x.length)
    (hta : isReverseE (some ta) = .ok false)
    (htd : isReverseE (some td) = .ok true) :
    plot_trajectory (x, y) c (s : Int) ac (n : Int) (some ta) =
      .ok ⟨(x, y, c), (List.range n).map fun k =>
        Arrow.mk (x.getD ((k + 1) * s) 0, y.getD ((k + 1) * s) 0)
                 (x.getD ((k + 1) * s - 2) 0, y.getD ((k + 1) * s - 2) 0) ac⟩
    ∧ plot_trajectory (x, y) c (s : Int) ac (n : Int) (some td) =
      .ok ⟨(x, y, c), ((List.range n).map fun k =>
        Arrow.mk (x.getD ((k + 1) * s) 0, y.getD ((k + 1) * s) 0)
                 (x.getD ((k + 1) * s - 2) 0, y.getD ((k + 1) * s - 2) 0) ac).map
        swapArrow⟩ := by
  have hrange : ∀ k, k < n → s + k * s < x.length := fun k hk =>
    calc s + k * s = (k + 1) * s := by ring
      _ ≤ n * s := Nat.mul_le_mul_right s hk
      _ < x.length := hn
  have hfwd := arrowLoop_forward_spec x y ac s hy n s hs hrange
  have hmap : ((List.range n).map fun k =>
      Arrow.mk (x.getD (s + k * s) 0, y.getD (s + k * s) 0)
               (x.getD (s + k * s - 2) 0, y.getD (s + k * s - 2) 0) ac) =
      ((List.range n).map fun k =>
      Arrow.mk (x.getD ((k + 1) * s) 0, y.getD ((k + 1) * s) 0)
               (x.getD ((k + 1) * s - 2) 0, y.getD ((k + 1) * s - 2) 0) ac) := by
    apply List.map_congr_left
    intro k _
    have h1 : (k + 1) * s = s + k * s := by
      rw [Nat.add_mul, Nat.one_mul, Nat.add_comm]
    rw [h1]
  constructor
  · unfold plot_trajectory
    simp only [hta, Int.toNat_natCast]
    rw [hfwd]
    simp only [Except.map]
    rw [hmap]
  · unfold plot_trajectory
    simp only [htd, Int.toNat_natCast]
    rw [arrowLoop_reverse_eq_map_swap x y ac (s : Int) n (s : Int), hfwd]
    simp only [Except.map]
    rw [hmap]

/-- Witness for C4 at concrete inputs. -/
theorem C4_arrow_placement_witness :
    plot_trajectory (samples30, samples30) "black" (2 : ℕ) "red" (3 : ℕ) none =
      .ok ⟨(samples30, samples30, "black"), (List.range 3).map fun k =>
        Arrow.mk (samples30.getD ((k + 1) * 2) 0, samples30.getD ((k + 1) * 2) 0)
                 (samples30.getD ((k + 1) * 2 - 2) 0, samples30.getD ((k + 1) * 2 - 2) 0)
                 "red"⟩ :=
  C4_arrow_placement samples30 samples30 "black" "red" 2 3 (by decide) rfl (by decide)

/-- Witness for C2 at concrete inputs (ascending `[0,1]`, descending `[1,0]`). -/
theorem C2_arrow_direction_under_time_reversal_witness :
    plot_trajectory (samples30, samples30) "black" (2 : ℕ) "red" (1 : ℕ) (some [0, 1]) =
      .ok ⟨(samples30, samples30, "black"), (List.range 1).map fun k =>
        Arrow.mk (samples30.getD ((k + 1) * 2) 0, samples30.getD ((k + 1) * 2) 0)
                 (samples30.getD ((k + 1) * 2 - 2) 0, samples30.getD ((k + 1) * 2 - 2) 0)
                 "red"⟩
    ∧ plot_trajectory (samples30, samples30) "black" (2 : ℕ) "red" (1 : ℕ) (some [1, 0]) =
      .ok ⟨(samples30, samples30, "black"), ((List.range 1).map fun k =>
        Arrow.mk (samples30.getD ((k + 1) * 2) 0, samples30.getD ((k + 1) * 2) 0)
                 (samples30.getD ((k + 1) * 2 - 2) 0, samples30.getD ((k + 1) * 2 - 2) 0)
                 "red").map swapArrow⟩ :=
  C2_arrow_direction_under_time_reversal samples30 samples30 "black" "red" 2 1 [0, 1] [1, 0]
    (by decide) rfl (by decide) (by decide) (by decide)

end PhasePortrait

namespace PhasePortrait

/-- The plot-config mapping (the `PlotConfig` TypedDict of the source,
with the two keys `arrow_span` and `number_of_arrow`). -/
structure PlotConfig where
  arrow_span : Int
  number_of_arrow : Int
  deriving DecidableEq, Repr

/-- The value of the module-level `DEFAULT_CONFIG` dict (source lines 7–10). -/
def DEFAULT_CONFIG : PlotConfig := ⟨20, 1⟩

/-- Python dicts are heap objects: a store (`List PlotConfig` indexed by
address) models their identity and in-place mutation. `DEFAULT_CONFIG` is
the single object allocated at module load, at address 0. -/
def DEFAULT_CONFIG_ADDR : ℕ := 0

/-- The config store right after module load: only `DEFAULT_CONFIG`. -/
def initStore : List PlotConfig := [DEFAULT_CONFIG]

/-- In-place mutation of the config dict at `addr` (a field written in
place through any reference to that dict). -/
def writeConfig (store : List PlotConfig) (addr : ℕ) (c : PlotConfig) :
    List PlotConfig :=
  store.set addr c

/-- Read the config dict at `addr`. -/
def readConfig (store : List PlotConfig) (addr : ℕ) : Option PlotConfig :=
  store[addr]?

/-- `InitialCondition` (source lines 18–37); the `config` field holds the
address of the record's config dict in the store. -/
structure InitialCondition where
  point : List ℚ
  t_eval : Option (List ℚ)
  rtol : ℚ
  atol : ℚ
  color : String
  arrow_color : String
  config : ℕ
  deriving DecidableEq, Repr

/-- `InitialCondition.__init__` (source lines 19–37): a `None` config
falls back to the module-level `DEFAULT_CONFIG` object itself — its
address, not a copy of its value. -/
def InitialCondition.init (point : List ℚ) (t_eval : Option (List ℚ))
    (rtol atol : ℚ) (color arrow_color : String) (config : Option ℕ) :
    InitialCondition :=
  ⟨point, t_eval, rtol, atol, color, arrow_color,
   config.getD DEFAULT_CONFIG_ADDR⟩

/-- The arguments of one `solve_ivp` invocation (source lines 134–142). -/
structure SolverCall where
  y0 : List ℚ
  t_span : ℚ × ℚ
  t_eval : List ℚ
  rtol : ℚ
  atol : ℚ
  method : String
  deriving DecidableEq, Repr

/-- The trace of a `plot_trajectories` run: the records processed so far
(with any batch `t_eval` written into them), the `solve_ivp` calls issued,
the rendered trajectory plots, and the first raised error, at which the
loop stops (an uncaught Python exception). -/
structure TrajResult where
  records : List InitialCondition
  calls : List SolverCall
  plots : List TrajPlot
  err : Option String
  deriving DecidableEq, Repr

/-- The tail of one `plot_trajectories` loop iteration (source lines
134–151), on the record after the fallback assignment: the `solve_ivp`
call — `t_span=[te[0], te[-1]]`, the record's tolerances, method RK45,
result supplied by the abstract `solver` — then the `plot_trajectory`
call using the record's colors and config. Returns the solver calls
issued and either the record with its rendered plot, or the raised
error. -/
def runResolved (solver : SolverCall → List ℚ × List ℚ)
    (store : List PlotConfig) (ic' : InitialCondition) :
    List SolverCall × Except String (InitialCondition × TrajPlot) :=
  match ic'.t_eval with
  | none => ([], .error "TypeError")
  | some te =>
    match pyGet te 0, pyGet te (-1) with
    | .ok t0, .ok t1 =>
      let call : SolverCall :=
        ⟨ic'.point, (t0, t1), te, ic'.rtol, ic'.atol, "RK45"⟩
      let sol := solver call
      match readConfig store ic'.config with
      | none => ([call], .error "KeyError")
      | some cfg =>
        match plot_trajectory sol ic'.color cfg.arrow_span ic'.arrow_color
            cfg.number_of_arrow (some te) with
        | .ok tp => ([call], .ok (ic', tp))
        | .error e => ([call], .error e)
    | .error e, _ => ([], .error e)
    | _, .error e => ([], .error e)

/-- One iteration of the `plot_trajectories` loop (source lines 126–151)
for record `ic` under batch schedule `t_eval`: the missing-schedule guard
(lines 128–129), the fallback assignment into the record (lines 131–132),
then `runResolved`. -/
def processOne (solver : SolverCall → List ℚ × List ℚ)
    (store : List PlotConfig) (ic : InitialCondition)
    (t_eval : Option (List ℚ)) :
    List SolverCall × Except String (InitialCondition × TrajPlot) :=
  if t_eval.isNone && ic.t_eval.isNone then
    ([], .error "ValueError: Need to provide t_eval value")
  else
    runResolved solver store
      (if ic.t_eval.isNone then { ic with t_eval := t_eval } else ic)

/-- The loop of `plot_trajectories` over the record list. -/
def goTraj (solver : SolverCall → List ℚ × List ℚ)
    (store : List PlotConfig) :
    List InitialCondition → Option (List ℚ) → TrajResult
  | [], _ => ⟨[], [], [], none⟩
  | ic :: rest, t_eval =>
    match processOne solver store ic t_eval with
    | (cs, .error e) => ⟨[], cs, [], some e⟩
    | (cs, .ok (ic', tp)) =>
      let r := goTraj solver store rest t_eval
      ⟨ic' :: r.records, cs ++ r.calls, tp :: r.plots, r.err⟩

/-- `PhasePortrait.plot_trajectories` (source lines 113–151). -/
def plot_trajectories (solver : SolverCall → List ℚ × List ℚ)
    (store : List PlotConfig)
    (initial_conditions_list : List InitialCondition)
    (t_eval : Option (List ℚ)) : TrajResult :=
  goTraj solver store initial_conditions_list t_eval

/-- Modelled from the spec: the legacy batch-API variant of
`plot_trajectories` (spec §7 and §8.7) is absent from src/ — only the
`List[PlotConfig]` branch of the `config` type annotation on
`InitialCondition` remains as its declaration. Per the spec it accepts a
per-trajectory configuration list, raises a configuration error when that
list's length disagrees with the number of initial conditions before any
integration begins, and otherwise pairs configurations with records by
position. -/
def plot_trajectories_legacy (solver : SolverCall → List ℚ × List ℚ)
    (initial_conditions_list : List InitialCondition)
    (configs : List PlotConfig) (t_eval : Option (List ℚ)) : TrajResult :=
  if configs.length ≠ initial_conditions_list.length then
    ⟨[], [], [], some "ValueError: config list length mismatch"⟩
  else
    goTraj solver configs
      (initial_conditions_list.enum.map fun p => { p.2 with config := p.1 })
      t_eval

/-- A deterministic stand-in solver for concrete witnesses: echoes the
requested schedule as both coordinate sequences. -/
def constSolver (call : SolverCall) : List ℚ × List ℚ :=
  (call.t_eval, call.t_eval)

end PhasePortrait

namespace PhasePortrait

/-- C8: `plot_equilibrium` colors the marker green exactly when
`is_stable` is true and red exactly when it is false, for every
coordinate pair. -/
theorem C8_equilibrium_color (coordinates : ℚ × ℚ) :
    (plot_equilibrium coordinates true).color = "green"
    ∧ (plot_equilibrium coordinates false).color = "red" :=
  ⟨rfl, rfl⟩

/-- C6: `save` with the default path targets directory `"images"`, creates
it exactly when it does not exist, and names the file
`plot_<n>.pdf` with `<n>` one greater than the number of listed files
whose names start with `"plot_"` and end with `".pdf"`. -/
theorem C6_save_default_path (dir_exists : Bool) (files : List String) :
    (save none dir_exists files).path = "images"
    ∧ (save none dir_exists files).makedirs = !dir_exists
    ∧ (save none dir_exists files).image_path =
        "images" ++ "/" ++ ("plot_" ++
          Nat.repr ((files.countP fun nm =>
            decide ("plot_".data <+: nm.data ∧ ".pdf".data <:+ nm.data)) + 1) ++ ".pdf") := by
  have hcount :
      (files.filter fun nm => startsWithM nm "plot_" && endsWithM nm ".pdf").length
        = files.countP fun nm =>
            decide ("plot_".data <+: nm.data ∧ ".pdf".data <:+ nm.data) := by
    have hfun : (fun nm => startsWithM nm "plot_" && endsWithM nm ".pdf")
        = (fun nm : String =>
            decide ("plot_".data <+: nm.data ∧ ".pdf".data <:+ nm.data)) := by
      funext nm
      rw [Bool.eq_iff_iff]
      simp [startsWithM, endsWithM]
    rw [List.countP_eq_length_filter, hfun]
  refine ⟨rfl, rfl, ?_⟩
  simp only [save, Option.getD]
  rw [hcount]

/-- C3 counterexample: with only `plot_2.pdf` already in the directory,
`save` counts one matching file and picks the name `plot_2.pdf`, which
coincides with the pre-existing file — so the chosen name can match (and
overwrite) an existing file. -/
theorem C3_counterexample_name_collision :
    (save none true ["plot_2.pdf"]).file_name = "plot_2.pdf"
    ∧ "plot_2.pdf" ∈ ["plot_2.pdf"] := by
  constructor
  · decide
  · decide

/-- C3 (amended): the chosen name is `plot_<count+1>.pdf`, which avoids
existing names when the matching files are exactly `plot_1.pdf…plot_k.pdf`;
in particular three saves into an initially empty directory create it and
produce `plot_1.pdf`, `plot_2.pdf`, `plot_3.pdf`, never matching a file
already present. -/
theorem C3_amended_fresh_directory_saves :
    (save none false []).makedirs = true
    ∧ (save none false []).file_name = "plot_1.pdf"
    ∧ (save none true ["plot_1.pdf"]).file_name = "plot_2.pdf"
    ∧ (save none true ["plot_1.pdf", "plot_2.pdf"]).file_name = "plot_3.pdf"
    ∧ (save none true ["plot_1.pdf"]).file_name ∉ ["plot_1.pdf"]
    ∧ (save none true ["plot_1.pdf", "plot_2.pdf"]).file_name ∉
        ["plot_1.pdf", "plot_2.pdf"] := by
  refine ⟨rfl, by decide, by decide, by decide, by decide, by decide⟩

end PhasePortrait

namespace PhasePortrait

/-- When `runResolved` returns a record, it is the record it was given:
this stage never mutates the record further. -/
lemma runResolved_ok_record (solver : SolverCall → List ℚ × List ℚ)
    (store : List PlotConfig) (ic' r : InitialCondition) (tp : TrajPlot)
    (h : (runResolved solver store ic').2 = .ok (r, tp)) : r = ic' := by
  unfold runResolved at h
  cases hte : ic'.t_eval with
  | none => simp only [hte] at h; simp at h
  | some te =>
    simp only [hte] at h
    cases hp : pyGet te 0 with
    | error e => simp only [hp] at h; simp at h
    | ok t0 =>
      cases hq : pyGet te (-1) with
      | error e => simp only [hp, hq] at h; simp at h
      | ok t1 =>
        simp only [hp, hq] at h
        cases hr : readConfig store ic'.config with
        | none => simp only [hr] at h; simp at h
        | some cfg =>
          simp only [hr] at h
          cases hplot : plot_trajectory
              (solver ⟨ic'.point, (t0, t1), te, ic'.rtol, ic'.atol, "RK45"⟩)
              ic'.color cfg.arrow_span ic'.arrow_color cfg.number_of_arrow
              (some te) with
          | ok tp2 =>
            simp only [hplot] at h
            simp at h
            exact h.1.symm
          | error e =>
            simp only [hplot] at h
            simp at h

/-- Every `solve_ivp` call issued by `runResolved` integrates the record's
own schedule with the record's own point and tolerances, method RK45. -/
lemma runResolved_calls (solver : SolverCall → List ℚ × List ℚ)
    (store : List PlotConfig) (ic' : InitialCondition) :
    ∀ c ∈ (runResolved solver store ic').1, ∃ te t0 t1,
      ic'.t_eval = some te ∧
      c = SolverCall.mk ic'.point (t0, t1) te ic'.rtol ic'.atol "RK45" := by
  intro c hc
  unfold runResolved at hc
  cases hte : ic'.t_eval with
  | none =>
    simp only [hte] at hc
    simp at hc
  | some te =>
    simp only [hte] at hc
    cases hp : pyGet te 0 with
    | error e =>
      simp only [hp] at hc
      simp at hc
    | ok t0 =>
      cases hq : pyGet te (-1) with
      | error e =>
        simp only [hp, hq] at hc
        simp at hc
      | ok t1 =>
        simp only [hp, hq] at hc
        cases hr : readConfig store ic'.config with
        | none =>
          simp only [hr] at hc
          simp at hc
          exact ⟨te, t0, t1, rfl, hc⟩
        | some cfg =>
          simp only [hr] at hc
          split at hc <;> (simp at hc; exact ⟨te, t0, t1, rfl, hc⟩)

/-- `goTraj` over a concatenation: the second part runs only when the
first finishes without error, and the traces concatenate. -/
lemma goTraj_append (solver : SolverCall → List ℚ × List ℚ)
    (store : List PlotConfig) (l₁ l₂ : List InitialCondition)
    (t : Option (List ℚ)) :
    goTraj solver store (l₁ ++ l₂) t =
      if (goTraj solver store l₁ t).err.isNone then
        ⟨(goTraj solver store l₁ t).records ++ (goTraj solver store l₂ t).records,
         (goTraj solver store l₁ t).calls ++ (goTraj solver store l₂ t).calls,
         (goTraj solver store l₁ t).plots ++ (goTraj solver store l₂ t).plots,
         (goTraj solver store l₂ t).err⟩
      else goTraj solver store l₁ t := by
  induction l₁ with
  | nil => simp [goTraj]
  | cons ic l₁ ih =>
    simp only [List.cons_append, goTraj]
    cases hp : processOne solver store ic t with
    | mk cs res =>
      cases res with
      | error e => simp
      | ok pr =>
        cases pr with
        | mk ic' tp =>
          simp only [List.append_eq]
          rw [ih]
          by_cases he : (goTraj solver store l₁ t).err.isNone
          · simp [he, List.append_assoc]
          · simp [he]

end PhasePortrait

namespace PhasePortrait

/-- C5: with no batch `t_eval`, as soon as the loop of
`plot_trajectories` reaches a record whose own `t_eval` is `None` (all
earlier records having been processed without error), it raises the
`ValueError` of line 129 for that record, and the solver calls of the run
are exactly those already made for the earlier records — none is made for
that record or any later one. -/
theorem C5_missing_schedule_fails_before_solve
    (solver : SolverCall → List ℚ × List ℚ) (store : List PlotConfig)
    (pre rest : List InitialCondition) (ic : InitialCondition)
    (h : ic.t_eval = none)
    (hpre : (plot_trajectories solver store pre none).err = none) :
    (plot_trajectories solver store (pre ++ ic :: rest) none).err =
      some "ValueError: Need to provide t_eval value"
    ∧ (plot_trajectories solver store (pre ++ ic :: rest) none).calls =
      (plot_trajectories solver store pre none).calls := by
  have hone : processOne solver store ic none =
      ([], .error "ValueError: Need to provide t_eval value") := by
    unfold processOne
    rw [h]
    simp
  have hcons : goTraj solver store (ic :: rest) none =
      ⟨[], [], [], some "ValueError: Need to provide t_eval value"⟩ := by
    rw [goTraj, hone]
  unfold plot_trajectories at hpre ⊢
  rw [goTraj_append, hpre, hcons]
  simp

/-- Witness for C5: an empty prefix and a record lacking a schedule. -/
theorem C5_missing_schedule_fails_before_solve_witness :
    (plot_trajectories constSolver initStore
        ([] ++ InitialCondition.init [1, 0] none (1/1000000) (1/10000000000)
          "black" "black" none :: []) none).err =
      some "ValueError: Need to provide t_eval value"
    ∧ (plot_trajectories constSolver initStore
        ([] ++ InitialCondition.init [1, 0] none (1/1000000) (1/10000000000)
          "black" "black" none :: []) none).calls =
      (plot_trajectories constSolver initStore [] none).calls :=
  C5_missing_schedule_fails_before_solve constSolver initStore [] []
    (InitialCondition.init [1, 0] none (1/1000000) (1/10000000000)
      "black" "black" none)
    rfl rfl

/-- C7: per record of `plot_trajectories`. A record with its own schedule
is processed identically whatever the batch default is (the batch value is
not applied to it), and any solver call made for it integrates exactly its
own schedule, point and tolerances. A record without a schedule is
processed exactly as if the batch default had been stored in its `t_eval`
field, the record returned in the trace carries that assignment (the
mutation persists), and any solver call made for it integrates the batch
schedule. -/
theorem C7_per_record_schedule_and_fallback
    (solver : SolverCall → List ℚ × List ℚ) (store : List PlotConfig)
    (ic : InitialCondition) :
    (∀ s, ic.t_eval = some s →
      (∀ t, processOne solver store ic t = processOne solver store ic none)
      ∧ ∀ c, c ∈ (processOne solver store ic none).1 →
          c.t_eval = s ∧ c.y0 = ic.point ∧ c.rtol = ic.rtol ∧ c.atol = ic.atol)
    ∧ (ic.t_eval = none → ∀ s,
      processOne solver store ic (some s) =
        processOne solver store { ic with t_eval := some s } none
      ∧ (∀ r tp, (processOne solver store ic (some s)).2 = .ok (r, tp) →
          r.t_eval = some s)
      ∧ ∀ c, c ∈ (processOne solver store ic (some s)).1 → c.t_eval = s) := by
  constructor
  · intro s hs
    constructor
    · intro t
      simp [processOne, hs]
    · intro c hmem
      have hred : processOne solver store ic none = runResolved solver store ic := by
        simp [processOne, hs]
      rw [hred] at hmem
      obtain ⟨te, t0, t1, hte, hcall⟩ := runResolved_calls solver store ic c hmem
      rw [hs] at hte
      cases hte
      rw [hcall]
      exact ⟨rfl, rfl, rfl, rfl⟩
  · intro hn s
    have hred : processOne solver store ic (some s) =
        runResolved solver store { ic with t_eval := some s } := by
      simp [processOne, hn]
    refine ⟨?_, ?_, ?_⟩
    · rw [hred]
      simp [processOne]
    · intro r tp hok
      rw [hred] at hok
      have := runResolved_ok_record solver store _ r tp hok
      rw [this]
    · intro c hmem
      rw [hred] at hmem
      obtain ⟨te, t0, t1, hte, hcall⟩ :=
        runResolved_calls solver store _ c hmem
      simp at hte
      rw [hcall, hte]

/-- Witness for C7: a record with its own schedule ignores the batch
default, and a schedule-less record adopts it. -/
theorem C7_per_record_schedule_and_fallback_witness :
    (processOne constSolver initStore
        (InitialCondition.init [1, 0] (some [0, 1]) (1/1000000) (1/10000000000)
          "black" "black" none) (some [9]) =
      processOne constSolver initStore
        (InitialCondition.init [1, 0] (some [0, 1]) (1/1000000) (1/10000000000)
          "black" "black" none) none)
    ∧ (processOne constSolver initStore
        (InitialCondition.init [1, 0] none (1/1000000) (1/10000000000)
          "black" "black" none) (some [0, 1]) =
      processOne constSolver initStore
        { InitialCondition.init [1, 0] none (1/1000000) (1/10000000000)
            "black" "black" none with t_eval := some [0, 1] } none) :=
  ⟨((C7_per_record_schedule_and_fallback constSolver initStore
      (InitialCondition.init [1, 0] (some [0, 1]) (1/1000000) (1/10000000000)
        "black" "black" none)).1 [0, 1] rfl).1 (some [9]),
   ((C7_per_record_schedule_and_fallback constSolver initStore
      (InitialCondition.init [1, 0] none (1/1000000) (1/10000000000)
        "black" "black" none)).2 rfl [0, 1]).1⟩

/-- C9 (spec-modelled): the legacy batch API raises its configuration
error whenever the config list length disagrees with the record list
length, and issues no solver call at all in that case. -/
theorem C9_legacy_config_length_mismatch
    (solver : SolverCall → List ℚ × List ℚ)
    (ics : List InitialCondition) (configs : List PlotConfig)
    (t : Option (List ℚ)) (h : configs.length ≠ ics.length) :
    (plot_trajectories_legacy solver ics configs t).err =
      some "ValueError: config list length mismatch"
    ∧ (plot_trajectories_legacy solver ics configs t).calls = [] := by
  unfold plot_trajectories_legacy
  rw [if_pos h]
  exact ⟨rfl, rfl⟩

/-- Witness for C9: one record, empty config list. -/
theorem C9_legacy_config_length_mismatch_witness :
    (plot_trajectories_legacy constSolver
        [InitialCondition.init [1, 0] none (1/1000000) (1/10000000000)
          "black" "black" none] [] none).err =
      some "ValueError: config list length mismatch"
    ∧ (plot_trajectories_legacy constSolver
        [InitialCondition.init [1, 0] none (1/1000000) (1/10000000000)
          "black" "black" none] [] none).calls = [] :=
  C9_legacy_config_length_mismatch constSolver
    [InitialCondition.init [1, 0] none (1/1000000) (1/10000000000)
      "black" "black" none] [] none (by decide)

/-- C10: any two `InitialCondition`s constructed with `config` omitted
hold the very same `DEFAULT_CONFIG` object (the same store address), so an
in-place write through one record's config is read back through the
other's. -/
theorem C10_shared_default_config
    (p₁ p₂ : List ℚ) (t₁ t₂ : Option (List ℚ)) (r₁ r₂ a₁ a₂ : ℚ)
    (c₁ c₂ ac₁ ac₂ : String) :
    (InitialCondition.init p₁ t₁ r₁ a₁ c₁ ac₁ none).config =
      (InitialCondition.init p₂ t₂ r₂ a₂ c₂ ac₂ none).config
    ∧ ∀ (store : List PlotConfig) (c : PlotConfig),
        (InitialCondition.init p₁ t₁ r₁ a₁ c₁ ac₁ none).config < store.length →
        readConfig
          (writeConfig store
            ((InitialCondition.init p₁ t₁ r₁ a₁ c₁ ac₁ none).config) c)
          ((InitialCondition.init p₂ t₂ r₂ a₂ c₂ ac₂ none).config) = some c := by
  refine ⟨rfl, ?_⟩
  intro store c hlt
  unfold readConfig writeConfig
  exact List.getElem?_set_self hlt

/-- Witness for C10: writing `⟨7, 3⟩` in place through one default-config
record is observed through another. -/
theorem C10_shared_default_config_witness :
    readConfig
      (writeConfig initStore
        ((InitialCondition.init [1, 0] none 1 1 "black" "black" none).config)
        ⟨7, 3⟩)
      ((InitialCondition.init [0, 1] (some [0]) 2 2 "red" "blue" none).config) =
      some ⟨7, 3⟩ :=
  (C10_shared_default_config [1, 0] [0, 1] none (some [0]) 1 2 1 2
    "black" "red" "black" "blue").2 initStore ⟨7, 3⟩ (by decide)

end PhasePortrait
